import Mathlib

/-!
Verification of the agent task execution engine of the
question-randomizer-ai-agent service: a shallow embedding of the agent
executor loop (agent-executor.ts), the SSE streaming manager
(sse-manager.ts, stream-formatter.ts), the task tracker
(task-tracker.service.ts), the agent context (agent-context.ts) and the
queue worker (task-queue.ts, agent-worker.ts), with theorems checking the
natural-language specification against this embedding.

Wall-clock aspects (the timeout race, backoff sleeps, heartbeat pings) are
modelled by explicit parameters or are out of the trace: the timeout race
outcome is a boolean parameter, and the delivered event trace is the trace
of the execution path.  The structures `modelCalls` and `toolRuns` on the
loop state are observational counters (number of model-completion calls
made, number of tool invocations processed); they do not influence control
flow.
-/

namespace QRAgent

/-- Token usage of one model completion (`response.usage`). -/
structure Usage where
  input_tokens : Nat
  output_tokens : Nat
deriving DecidableEq, Repr

/-- One content block of a model message: a text block, or a tool-use
request carrying a correlation id (`block.id`), the tool name and the JSON
input (abstracted as a string). -/
inductive ContentBlock where
  | text (t : String)
  | tool_use (id : String) (name : String) (input : String)
deriving DecidableEq, Repr

/-- The model's stop reason. -/
inductive StopReason where
  | end_turn
  | tool_use
  | max_tokens
  | stop_sequence
deriving DecidableEq, Repr

/-- A model response message (`Anthropic.Message`): content blocks, stop
reason and optional usage. -/
structure Message where
  content : List ContentBlock
  stop_reason : StopReason
  usage : Option Usage
deriving DecidableEq, Repr

/-- SSE event kinds (sse-manager.ts `SSEEventType`). -/
inductive SSEEventType where
  | progress
  | tool_use
  | thinking
  | complete
  | error
  | ping
deriving DecidableEq, Repr

/-- One SSE event; the payload is abstracted as a string. -/
structure SSEEvent where
  type : SSEEventType
  data : String
deriving DecidableEq, Repr

/-- A terminal event is a `complete` or an `error` event. -/
def SSEEvent.isTerminal (e : SSEEvent) : Bool :=
  e.type == SSEEventType.complete || e.type == SSEEventType.error

/-- The SSE manager's observable state: the closed flag and the list of
events written to the connection, in delivery order (sse-manager.ts). -/
structure SSEManager where
  isClosed : Bool
  sent : List SSEEvent
deriving DecidableEq, Repr

namespace SSEManager

/-- `sendEvent`: a send on a closed connection returns without writing;
otherwise the formatted event is written to the response. -/
def sendEvent (st : SSEManager) (e : SSEEvent) : SSEManager :=
  if st.isClosed then st
  else { st with sent := st.sent ++ [e] }

/-- `sendProgress` (the numeric progress value is part of the payload). -/
def sendProgress (st : SSEManager) (message : String) : SSEManager :=
  st.sendEvent { type := SSEEventType.progress, data := message }

/-- `sendToolUse`. -/
def sendToolUse (st : SSEManager) (toolName : String) : SSEManager :=
  st.sendEvent { type := SSEEventType.tool_use, data := toolName }

/-- `sendThinking`. -/
def sendThinking (st : SSEManager) (content : String) : SSEManager :=
  st.sendEvent { type := SSEEventType.thinking, data := content }

/-- `sendComplete`. -/
def sendComplete (st : SSEManager) (result : String) : SSEManager :=
  st.sendEvent { type := SSEEventType.complete, data := result }

/-- `sendError`. -/
def sendError (st : SSEManager) (message : String) : SSEManager :=
  st.sendEvent { type := SSEEventType.error, data := message }

/-- `close`: an already-closed connection is left as is; otherwise the ping
interval is stopped, the response is ended and the state becomes closed. -/
def close (st : SSEManager) : SSEManager :=
  if st.isClosed then st
  else { st with isClosed := true }

/-- `handleDisconnect`: a remote disconnect on an open connection stops the
ping interval and marks the state closed; it does not end the response. -/
def handleDisconnect (st : SSEManager) : SSEManager :=
  if st.isClosed then st
  else { st with isClosed := true }

end SSEManager

/-- The execution context passed to agent tools (agent-context.ts). -/
structure AgentContext where
  userId : String
  taskId : String
  conversationId : Option String
  metadata : Option String
deriving DecidableEq, Repr

/-- Options of `createAgentContext`. -/
structure ContextOptions where
  conversationId : Option String := none
  metadata : Option String := none
deriving DecidableEq, Repr

/-- `createAgentContext(userId, taskId, options)`: note the declared
parameter order of agent-context.ts, first `userId`, then `taskId`. -/
def createAgentContext (userId : String) (taskId : String)
    (options : ContextOptions) : AgentContext :=
  { userId := userId
    taskId := taskId
    conversationId := options.conversationId
    metadata := options.metadata }

/-- What a tool's `execute` returns on the success path of its own
try/catch: a content payload (the text of the content blocks, abstracted
as one string) and an optional `is_error` flag. -/
structure ToolResultContent where
  content : String
  is_error : Option Bool
deriving DecidableEq, Repr

/-- A tool of the registry: a name and an `execute(input, context)` that
either returns a result or throws (modelled as `Except` with the thrown
message). -/
structure Tool where
  name : String
  execute : String → AgentContext → Except String ToolResultContent

/-- An `Anthropic.ToolResultBlockParam` appended to the conversation. -/
structure ToolResultBlockParam where
  tool_use_id : String
  content : String
  is_error : Option Bool
deriving DecidableEq, Repr

/-- `JSON.stringify({ success: false, error: msg })` as produced by the
executor's per-tool catch block. -/
def errorResultContent (msg : String) : String :=
  "\x7b\"success\":false,\"error\":\"" ++ msg ++ "\"\x7d"

/-- The message of the executor-internal throw for an unknown tool name. -/
def toolNotFoundMessage (name : String) : String :=
  "Tool \x27" ++ name ++ "\x27 not found"

/-- `streamToolResult` (stream-formatter.ts): sends a `tool_use` event with
the tool name and the extracted result text. -/
def streamToolResult (toolName : String) (sse : SSEManager) : SSEManager :=
  sse.sendToolUse toolName

/-- One turn of the conversation (`Anthropic.MessageParam`): the seeded
user instruction, an assistant response, or the user turn carrying tool
results. -/
inductive MessageParam where
  | userText (t : String)
  | assistantBlocks (content : List ContentBlock)
  | userToolResults (results : List ToolResultBlockParam)
deriving DecidableEq, Repr

/-- The body of the executor's per-block try/catch in `executeTools`: look
the tool up by name; an absent name throws `Tool <name> not found`, which
the catch converts into an error tool result; a found tool is executed and
a thrown error is likewise converted; a returned result is pushed with the
block's correlation id.  Returns the pushed tool result and the streaming
state (the result is streamed only on the success path). -/
def executeToolBlock (allTools : List Tool) (context : AgentContext)
    (hasSSE : Bool) (sse : SSEManager) (id : String) (name : String)
    (input : String) : ToolResultBlockParam × SSEManager :=
  match allTools.find? (fun t => t.name == name) with
  | none =>
      ({ tool_use_id := id
         content := errorResultContent (toolNotFoundMessage name)
         is_error := some true }, sse)
  | some tool =>
      match tool.execute input context with
      | Except.ok result =>
          let sse1 := if hasSSE then streamToolResult name sse else sse
          ({ tool_use_id := id
             content := result.content
             is_error := result.is_error }, sse1)
      | Except.error msg =>
          ({ tool_use_id := id
             content := errorResultContent msg
             is_error := some true }, sse)

/-- The `for (const block of response.content)` loop of `executeTools`:
text blocks are skipped; each `tool_use` block is handled by
`executeToolBlock` and pushes exactly one tool result. -/
def executeToolsGo (allTools : List Tool) (context : AgentContext)
    (hasSSE : Bool) :
    List ContentBlock → SSEManager → List ToolResultBlockParam × SSEManager
  | [], sse => ([], sse)
  | ContentBlock.text _ :: rest, sse =>
      executeToolsGo allTools context hasSSE rest sse
  | ContentBlock.tool_use id name input :: rest, sse =>
      let r := executeToolBlock allTools context hasSSE sse id name input
      let rs := executeToolsGo allTools context hasSSE rest r.2
      (r.1 :: rs.1, rs.2)

/-- `executeTools(context, response, sseManager)`. -/
def executeTools (allTools : List Tool) (context : AgentContext)
    (response : Message) (hasSSE : Bool) (sse : SSEManager) :
    List ToolResultBlockParam × SSEManager :=
  executeToolsGo allTools context hasSSE response.content sse

/-- The tool-use requests of a block list: (correlation id, name, input),
in order. -/
def toolUseRequests : List ContentBlock → List (String × String × String)
  | [] => []
  | ContentBlock.text _ :: rest => toolUseRequests rest
  | ContentBlock.tool_use id name input :: rest =>
      (id, name, input) :: toolUseRequests rest

/-- `streamAgentResponse` (stream-formatter.ts): text blocks stream as
`thinking` events, tool-use blocks as `tool_use` events. -/
def streamAgentResponse (response : Message) (sse : SSEManager) :
    SSEManager :=
  response.content.foldl
    (fun s b =>
      match b with
      | ContentBlock.text t => s.sendThinking t
      | ContentBlock.tool_use _ name _ => s.sendToolUse name)
    sse

/-- Errors thrown during execution (utils/errors.ts plus the plain
`Error`): `TimeoutError`, `AgentExecutionError`, or a generic error. -/
inductive ThrownError where
  | timeoutError (msg : String)
  | agentExecutionError (msg : String)
  | genericError (msg : String)
deriving DecidableEq, Repr

/-- `error.message`. -/
def ThrownError.message : ThrownError → String
  | .timeoutError m => m
  | .agentExecutionError m => m
  | .genericError m => m

/-- `error.name` (the class name set by the `AppError` constructor). -/
def ThrownError.name : ThrownError → String
  | .timeoutError _ => "TimeoutError"
  | .agentExecutionError _ => "AgentExecutionError"
  | .genericError _ => "Error"

/-- The stable error `code` of the error envelope (`AppError.code`):
`TIMEOUT_ERROR` for `TimeoutError`, `AGENT_EXECUTION_ERROR` for
`AgentExecutionError`; a generic error carries no `AppError` code. -/
def ThrownError.code : ThrownError → Option String
  | .timeoutError _ => some "TIMEOUT_ERROR"
  | .agentExecutionError _ => some "AGENT_EXECUTION_ERROR"
  | .genericError _ => none

/-- The configured maximum of the agent loop
(anthropic.config.ts `CLAUDE_CONFIG.MAX_ITERATIONS`). -/
def CLAUDE_CONFIG.MAX_ITERATIONS : Nat := 20

/-- The default of `env.AGENT_TIMEOUT_MS` (environment schema). -/
def AGENT_TIMEOUT_MS : Nat := 120000

/-- The message of the iteration-limit throw in `executeAgentLoop`. -/
def iterationLimitMessage (maxIterations : Nat) : String :=
  "Agent exceeded maximum iterations (" ++ toString maxIterations ++ ")"

/-- The `TimeoutError` message of `executeWithTimeout`. -/
def timeoutMessage (timeoutMs : Nat) : String :=
  "Agent execution timed out after " ++ toString timeoutMs ++ "ms"

/-- The loop's threaded state: the scripted model responses not yet
consumed, the conversation, the SSE state, and two observational counters
(model-completion calls made; tool invocations processed). -/
structure LoopState where
  script : List Message
  messages : List MessageParam
  sse : SSEManager
  modelCalls : Nat
  toolRuns : Nat
deriving Repr

/-- The `while (iteration < maxIterations)` loop of `executeAgentLoop`,
by fuel (`maxIterations - iteration`).  Exhausted fuel is the loop exit,
which throws `AgentExecutionError` with the iteration-limit message.  The
model call consumes the next scripted response (a call with an exhausted
script models the client call itself throwing); `end_turn` returns the
response, `tool_use` runs the tools, appends the assistant turn and the
tool results to the conversation and continues, `max_tokens` and other
stop reasons return the response. -/
def executeAgentLoopGo (allTools : List Tool) (context : AgentContext)
    (maxIterations : Nat) (hasSSE : Bool) :
    Nat → LoopState → Except ThrownError Message × LoopState
  | 0, st =>
      (Except.error
        (ThrownError.agentExecutionError (iterationLimitMessage maxIterations)),
       st)
  | Nat.succ n, st =>
      match st.script with
      | [] =>
          (Except.error (ThrownError.genericError "model completion request failed"),
           st)
      | response :: rest =>
          let st1 : LoopState :=
            { st with script := rest, modelCalls := st.modelCalls + 1 }
          let sse1 :=
            if hasSSE then streamAgentResponse response st1.sse else st1.sse
          let st2 : LoopState := { st1 with sse := sse1 }
          match response.stop_reason with
          | StopReason.end_turn => (Except.ok response, st2)
          | StopReason.tool_use =>
              let sse2 :=
                if hasSSE then st2.sse.sendProgress "Executing tools..."
                else st2.sse
              let tr := executeTools allTools context response hasSSE sse2
              let st3 : LoopState :=
                { st2 with
                  sse := tr.2
                  messages := st2.messages ++
                    [MessageParam.assistantBlocks response.content,
                     MessageParam.userToolResults tr.1]
                  toolRuns := st2.toolRuns + tr.1.length }
              executeAgentLoopGo allTools context maxIterations hasSSE n st3
          | StopReason.max_tokens => (Except.ok response, st2)
          | StopReason.stop_sequence => (Except.ok response, st2)

/-- `executeAgentLoop(context, messages, sseManager)` with the scripted
model client and the configured iteration bound. -/
def executeAgentLoop (allTools : List Tool) (context : AgentContext)
    (messages : List MessageParam) (hasSSE : Bool) (sse : SSEManager)
    (script : List Message) (maxIterations : Nat) :
    Except ThrownError Message × LoopState :=
  executeAgentLoopGo allTools context maxIterations hasSSE maxIterations
    { script := script, messages := messages, sse := sse
      modelCalls := 0, toolRuns := 0 }

/-- `countToolUses(response)`. -/
def ContentBlock.isToolUse : ContentBlock → Bool
  | ContentBlock.tool_use _ _ _ => true
  | ContentBlock.text _ => false

/-- `countToolUses(response)`: the number of tool-use blocks of one
response. -/
def countToolUses (response : Message) : Nat :=
  (response.content.filter ContentBlock.isToolUse).length

/-- Text-block test. -/
def ContentBlock.isText : ContentBlock → Bool
  | ContentBlock.text _ => true
  | ContentBlock.tool_use _ _ _ => false

/-- The text of a block (empty for a tool-use block), as in the `map` of
`extractTextFromResponse`. -/
def ContentBlock.textOrEmpty : ContentBlock → String
  | ContentBlock.text t => t
  | ContentBlock.tool_use _ _ _ => ""

/-- `extractTextFromResponse(response)`. -/
def extractTextFromResponse (response : Message) : String :=
  let textBlocks := response.content.filter ContentBlock.isText
  if textBlocks.length == 0 then "Task completed (no text output)"
  else String.intercalate "\n\n" (textBlocks.map ContentBlock.textOrEmpty)

/-- `executeWithTimeout(fn, timeoutMs)`: the race of the wrapped run
against one wall-clock timer; `timedOut` is the race outcome (true when
the timer fires first, in which case the in-flight run is abandoned and a
`TimeoutError` is the result). -/
def executeWithTimeout {α : Type} (timedOut : Bool) (timeoutMs : Nat)
    (run : Except ThrownError α) : Except ThrownError α :=
  if timedOut then
    Except.error (ThrownError.timeoutError (timeoutMessage timeoutMs))
  else run

/-- `tokensUsed` of the execution result. -/
structure TokensUsed where
  input : Nat
  output : Nat
  total : Nat
deriving DecidableEq, Repr

/-- `AgentExecutionResult`. -/
structure AgentExecutionResult where
  taskId : String
  result : String
  toolsUsed : Nat
  iterations : Nat
  durationMs : Nat
  tokensUsed : Option TokensUsed
deriving DecidableEq, Repr

/-- `AgentTaskInput`. -/
structure AgentTaskInput where
  task : String
  userId : String
  conversationId : Option String := none
  metadata : Option String := none
deriving DecidableEq, Repr

/-- The whole observable outcome of one `executeTask` run: the returned
result or thrown error, the final SSE state, and the final loop state
(conversation and counters). -/
structure TaskRunOutcome where
  outcome : Except ThrownError AgentExecutionResult
  sse : SSEManager
  loopState : LoopState
deriving Repr

/-- The context options `executeTask` assembles from its input. -/
def executeTaskContextOptions (input : AgentTaskInput) : ContextOptions :=
  { conversationId := input.conversationId, metadata := input.metadata }

/-- The context `executeTask` builds:
`createAgentContext(taskId, input.userId, contextOptions)` — the argument
order of the call site in agent-executor.ts line 112. -/
def executeTaskContext (input : AgentTaskInput) (taskId : String) :
    AgentContext :=
  createAgentContext taskId input.userId (executeTaskContextOptions input)

/-- The seeded conversation of `executeTask`. -/
def executeTaskInitialMessages (input : AgentTaskInput) :
    List MessageParam :=
  [MessageParam.userText input.task]

/-- The loop call of `executeTask` (after the start-progress event). -/
def executeTaskLoop (allTools : List Tool) (script : List Message)
    (input : AgentTaskInput) (taskId : String) (hasSSE : Bool)
    (sse : SSEManager) (maxIterations : Nat) :
    Except ThrownError Message × LoopState :=
  executeAgentLoop allTools (executeTaskContext input taskId)
    (executeTaskInitialMessages input) hasSSE
    (if hasSSE then sse.sendProgress "Starting task execution..." else sse)
    script maxIterations

/-- `streamError` (stream-formatter.ts): sends an `error` event when the
manager is present and not closed. -/
def streamError (e : ThrownError) (sse : SSEManager) : SSEManager :=
  if sse.isClosed then sse else sse.sendError e.message

/-- `streamTaskCompletion` (stream-formatter.ts): sends the `complete`
event carrying the task id, result and metadata. -/
def streamTaskCompletion (result : String) (sse : SSEManager) :
    SSEManager :=
  sse.sendComplete result

/-- `executeTask(input, sseManager)`: build the context (with the call-site
argument order), seed the conversation, run the loop under the single
timeout race, then on success set `iterations = 1`, count the tool uses of
the final response, extract the text, take token usage from the final
response, stream completion and close; on error stream the error and
close, rethrow a `TimeoutError` as is and wrap anything else in a new
`AgentExecutionError`.  `taskId` stands for the generated `randomUUID()`,
`durationMs` for the wall-clock duration, `timedOut` for the outcome of the
timeout race. -/
def executeTask (allTools : List Tool) (script : List Message)
    (input : AgentTaskInput) (taskId : String) (timedOut : Bool)
    (timeoutMs : Nat) (durationMs : Nat) (hasSSE : Bool)
    (sse : SSEManager) (maxIterations : Nat) : TaskRunOutcome :=
  let lp := executeTaskLoop allTools script input taskId hasSSE sse
    maxIterations
  let raced := executeWithTimeout timedOut timeoutMs lp.1
  match raced with
  | Except.ok response =>
      let iterations : Nat := 1
      let toolsUsed := countToolUses response
      let finalText := extractTextFromResponse response
      let tokensUsed := response.usage.map (fun u =>
        { input := u.input_tokens
          output := u.output_tokens
          total := u.input_tokens + u.output_tokens : TokensUsed })
      let result : AgentExecutionResult :=
        { taskId := taskId, result := finalText, toolsUsed := toolsUsed
          iterations := iterations, durationMs := durationMs
          tokensUsed := tokensUsed }
      let sseF :=
        if hasSSE then (streamTaskCompletion finalText lp.2.sse).close
        else lp.2.sse
      { outcome := Except.ok result, sse := sseF, loopState := lp.2 }
  | Except.error e =>
      let sseF :=
        if hasSSE then (streamError e lp.2.sse).close else lp.2.sse
      match e with
      | ThrownError.timeoutError m =>
          { outcome := Except.error (ThrownError.timeoutError m)
            sse := sseF, loopState := lp.2 }
      | e1 =>
          { outcome := Except.error (ThrownError.agentExecutionError
              ("Agent task execution failed: " ++ e1.message))
            sse := sseF, loopState := lp.2 }

/-- The error name of an outcome, `none` on success. -/
def outcomeErrorName : Except ThrownError AgentExecutionResult → Option String
  | Except.error e => some e.name
  | Except.ok _ => none

/-- The stable error code of an outcome, `none` on success. -/
def outcomeErrorCode : Except ThrownError AgentExecutionResult → Option String
  | Except.error e => e.code
  | Except.ok _ => none

/-- Task status (agent-response.dto `TaskStatus`). -/
inductive TaskStatus where
  | pending
  | inProgress
  | completed
  | failed
deriving DecidableEq, Repr

/-- The `error` field stored on a failed task record. -/
structure TaskErrorField where
  message : String
  code : Option String
deriving DecidableEq, Repr

/-- The `metadata` field of a task record. -/
structure TaskMetadataField where
  toolsUsed : Option Nat := none
  iterations : Option Nat := none
  durationMs : Option Nat := none
  tokensUsed : Option TokensUsed := none
  retryCount : Option Nat := none
deriving DecidableEq, Repr

/-- `TaskRecord` stored in the `agent_tasks` collection
(task-tracker.service.ts).  Timestamps are naturals. -/
structure TaskRecord where
  taskId : String
  userId : String
  task : String
  status : TaskStatus
  result : Option String := none
  error : Option TaskErrorField := none
  metadata : Option TaskMetadataField := none
  createdAt : Nat
  updatedAt : Nat
  completedAt : Option Nat := none
deriving DecidableEq, Repr

/-- `createTask(taskId, userId, task)`. -/
def createTask (taskId : String) (userId : String) (task : String)
    (now : Nat) : TaskRecord :=
  { taskId := taskId, userId := userId, task := task
    status := TaskStatus.pending, createdAt := now, updatedAt := now }

/-- `updateTaskStatus(taskId, status, metadata?)`: a Firestore `update`
merging the given fields into the stored record, unconditionally;
`completedAt` is set exactly when the new status is terminal. -/
def updateTaskStatus (r : TaskRecord) (status : TaskStatus)
    (metadata : Option TaskMetadataField) (now : Nat) : TaskRecord :=
  let r1 := { r with status := status, updatedAt := now }
  let r2 :=
    match metadata with
    | some m => { r1 with metadata := some m }
    | none => r1
  if status = TaskStatus.completed ∨ status = TaskStatus.failed then
    { r2 with completedAt := some now }
  else r2

/-- `markTaskProcessing(taskId)`. -/
def markTaskProcessing (r : TaskRecord) (now : Nat) : TaskRecord :=
  updateTaskStatus r TaskStatus.inProgress none now

/-- `markTaskCompleted(taskId, result)`: an unconditional Firestore
`update` setting status, result, metadata, `updatedAt` and `completedAt`;
the stored record's current status is not read. -/
def markTaskCompleted (r : TaskRecord) (result : AgentExecutionResult)
    (now : Nat) : TaskRecord :=
  { r with
    status := TaskStatus.completed
    result := some result.result
    metadata := some
      { toolsUsed := some result.toolsUsed
        iterations := some result.iterations
        durationMs := some result.durationMs
        tokensUsed := result.tokensUsed }
    updatedAt := now
    completedAt := some now }

/-- `markTaskFailed(taskId, error, retryCount?)`: an unconditional
Firestore `update` setting status, the error field, `updatedAt` and
`completedAt`, and replacing `metadata` by `{ retryCount }` when a retry
count is given; the stored record's current status is not read. -/
def markTaskFailed (r : TaskRecord) (error : ThrownError)
    (retryCount : Option Nat) (now : Nat) : TaskRecord :=
  let r1 : TaskRecord :=
    { r with
      status := TaskStatus.failed
      error := some { message := error.message, code := some error.name }
      updatedAt := now
      completedAt := some now }
  match retryCount with
  | some n => { r1 with metadata := some { retryCount := some n } }
  | none => r1

/-- The default of `env.QUEUE_MAX_RETRIES` (environment schema). -/
def QUEUE_MAX_RETRIES : Nat := 3

/-- `attempts` configured on the queue (task-queue.ts):
`env.QUEUE_MAX_RETRIES + 1`, one for the initial attempt. -/
def jobAttempts (maxRetries : Nat) : Nat := maxRetries + 1

/-- The configured exponential-backoff base delay (task-queue.ts):
1000 ms. -/
def backoffBaseDelayMs : Nat := 1000

/-- Modelled from the spec: the delay the external queue broker (BullMQ)
waits before retry number `retryIndex` (0-based) under the configured
`exponential` policy — "exponential backoff starting at a fixed base delay
and doubling per attempt" (§4.3); the broker itself is not repository
code. -/
def backoffDelayMs (retryIndex : Nat) : Nat :=
  backoffBaseDelayMs * 2 ^ retryIndex

/-- `processAgentTask(job)` (agent-worker.ts): mark the tracked task
processing, run the executor; on success mark it completed and return the
result; on a throw, mark the tracked task failed with
`retryCount = attemptNumber` exactly when this was the last attempt
(`attemptNumber >= env.QUEUE_MAX_RETRIES`), then rethrow.  `attemptNumber`
is `job.attemptsMade`, the number of earlier failed attempts (0 on the
first attempt); `hasTrackedTaskId` is whether `metadata.taskId` is present;
the Firestore record is threaded explicitly. -/
def processAgentTask (maxRetries : Nat) (attemptNumber : Nat)
    (hasTrackedTaskId : Bool) (tracker : TaskRecord)
    (execOutcome : Except ThrownError AgentExecutionResult) (now : Nat) :
    Except ThrownError AgentExecutionResult × TaskRecord :=
  let tracker1 :=
    if hasTrackedTaskId then markTaskProcessing tracker now else tracker
  match execOutcome with
  | Except.ok result =>
      let tracker2 :=
        if hasTrackedTaskId then markTaskCompleted tracker1 result now
        else tracker1
      (Except.ok result, tracker2)
  | Except.error e =>
      let tracker2 :=
        if hasTrackedTaskId ∧ maxRetries ≤ attemptNumber then
          markTaskFailed tracker1 e (some attemptNumber) now
        else tracker1
      (Except.error e, tracker2)

/-- Modelled from the spec: the external queue broker (BullMQ) runs a job
up to the configured `attempts` times — the initial attempt plus one retry
after each failed attempt while attempts remain (§4.3: "N attempts total
... only after the final attempt is exhausted is the Job marked terminally
failed").  `outcomes i` is what the executor does on the attempt with
`attemptsMade = i`; returns (total attempts made, final tracker record,
job result if any attempt succeeded). -/
def runJobGo (maxRetries : Nat)
    (outcomes : Nat → Except ThrownError AgentExecutionResult)
    (hasTrackedTaskId : Bool) (now : Nat) :
    Nat → Nat → TaskRecord →
      Nat × TaskRecord × Option AgentExecutionResult
  | 0, attemptsMade, tracker => (attemptsMade, tracker, none)
  | Nat.succ remaining, attemptsMade, tracker =>
      let step := processAgentTask maxRetries attemptsMade hasTrackedTaskId
        tracker (outcomes attemptsMade) now
      match step.1 with
      | Except.ok r => (attemptsMade + 1, step.2, some r)
      | Except.error _ =>
          runJobGo maxRetries outcomes hasTrackedTaskId now remaining
            (attemptsMade + 1) step.2

/-- One queued job run under the configured retry policy
(`attempts = maxRetries + 1`). -/
def runJob (maxRetries : Nat)
    (outcomes : Nat → Except ThrownError AgentExecutionResult)
    (hasTrackedTaskId : Bool) (now : Nat) (tracker : TaskRecord) :
    Nat × TaskRecord × Option AgentExecutionResult :=
  runJobGo maxRetries outcomes hasTrackedTaskId now
    (jobAttempts maxRetries) 0 tracker

/-- The per-invocation outcome of one model-requested tool call, as a pure
function: the tool result the executor's per-block try/catch pushes for a
request (id, name, input). -/
def toolResultFor (allTools : List Tool) (context : AgentContext)
    (id : String) (name : String) (input : String) : ToolResultBlockParam :=
  match allTools.find? (fun t => t.name == name) with
  | none =>
      { tool_use_id := id
        content := errorResultContent (toolNotFoundMessage name)
        is_error := some true }
  | some tool =>
      match tool.execute input context with
      | Except.ok result =>
          { tool_use_id := id
            content := result.content
            is_error := result.is_error }
      | Except.error msg =>
          { tool_use_id := id
            content := errorResultContent msg
            is_error := some true }

/-- `b` extends `a` by non-terminal events only, with the closed flag
unchanged: the relation the executor's loop preserves on the SSE state. -/
def NTExt (a b : SSEManager) : Prop :=
  b.isClosed = a.isClosed ∧
  ∃ extra, b.sent = a.sent ++ extra ∧ ∀ e ∈ extra, e.isTerminal = false

/-! Concrete fixtures used by witnesses and concrete runs. -/

/-- A tool that echoes the `userId` of the context it receives: an
observer of the scoping identity the executor hands to tools. -/
def probeTool : Tool :=
  { name := "probe"
    execute := fun _ ctx =>
      Except.ok { content := ctx.userId, is_error := none } }

/-- A tool whose `execute` always throws. -/
def failTool : Tool :=
  { name := "boom"
    execute := fun _ _ => Except.error "kaput" }

/-- A model response requesting one call of the probe tool. -/
def msgToolProbe : Message :=
  { content := [ContentBlock.tool_use "tu1" "probe" "x"]
    stop_reason := StopReason.tool_use
    usage := some { input_tokens := 10, output_tokens := 5 } }

/-- A model response completing naturally with text. -/
def msgEnd : Message :=
  { content := [ContentBlock.text "done"]
    stop_reason := StopReason.end_turn
    usage := some { input_tokens := 20, output_tokens := 7 } }

/-- A model response requesting two tool calls: one of the throwing tool,
one of an unregistered name. -/
def msgTwoTools : Message :=
  { content := [ContentBlock.tool_use "a1" "boom" "x",
                ContentBlock.tool_use "a2" "nope" "y"]
    stop_reason := StopReason.tool_use
    usage := none }

/-- A sample task input with owner identity user-1. -/
def sampleInput : AgentTaskInput :=
  { task := "list categories", userId := "user-1" }

/-- A freshly attached, open SSE connection. -/
def freshSSE : SSEManager := { isClosed := false, sent := [] }

/-- A task record already in the terminal Completed state. -/
def completedRecord : TaskRecord :=
  { taskId := "t1", userId := "u1", task := "x"
    status := TaskStatus.completed, result := some "first result"
    createdAt := 1, updatedAt := 5, completedAt := some 5 }

/-! Helper lemmas. -/

theorem NTExt.rfl (a : SSEManager) : NTExt a a :=
  ⟨Eq.refl _, [], by simp, by simp⟩

theorem NTExt.trans {a b c : SSEManager} (h1 : NTExt a b) (h2 : NTExt b c) :
    NTExt a c := by
  obtain ⟨hc1, e1, hs1, hn1⟩ := h1
  obtain ⟨hc2, e2, hs2, hn2⟩ := h2
  refine ⟨hc2.trans hc1, e1 ++ e2, by simp [hs2, hs1], ?_⟩
  intro e he
  rcases List.mem_append.1 he with h | h
  · exact hn1 e h
  · exact hn2 e h

theorem ntext_sendEvent (st : SSEManager) (e : SSEEvent)
    (h : e.isTerminal = false) : NTExt st (st.sendEvent e) := by
  unfold SSEManager.sendEvent
  cases hc : st.isClosed
  · simp only [hc, Bool.false_eq_true, if_false]
    exact ⟨hc.symm, [e], rfl, by simpa using h⟩
  · simp only [hc, if_true]
    exact NTExt.rfl st

theorem ntext_sendProgress (st : SSEManager) (msg : String) :
    NTExt st (st.sendProgress msg) :=
  ntext_sendEvent st _ (by rfl)

theorem ntext_sendThinking (st : SSEManager) (msg : String) :
    NTExt st (st.sendThinking msg) :=
  ntext_sendEvent st _ (by rfl)

theorem ntext_sendToolUse (st : SSEManager) (toolName : String) :
    NTExt st (st.sendToolUse toolName) :=
  ntext_sendEvent st _ (by rfl)

theorem ntext_ite {c : Bool} {a b : SSEManager} (h : NTExt a b) :
    NTExt a (if c then b else a) := by
  cases c
  · simpa using NTExt.rfl a
  · simpa using h

theorem ntext_streamAgentResponse (response : Message) (sse : SSEManager) :
    NTExt sse (streamAgentResponse response sse) := by
  unfold streamAgentResponse
  generalize response.content = blocks
  induction blocks generalizing sse with
  | nil => exact NTExt.rfl sse
  | cons b rest ih =>
      simp only [List.foldl_cons]
      refine NTExt.trans ?_ (ih _)
      cases b with
      | text t => exact ntext_sendThinking sse t
      | tool_use id name input => exact ntext_sendToolUse sse name

theorem ntext_executeToolBlock (allTools : List Tool)
    (context : AgentContext) (hasSSE : Bool) (sse : SSEManager)
    (id name input : String) :
    NTExt sse (executeToolBlock allTools context hasSSE sse id name input).2 := by
  unfold executeToolBlock
  split
  · exact NTExt.rfl sse
  · split
    · exact ntext_ite (ntext_sendToolUse sse name)
    · exact NTExt.rfl sse

theorem ntext_executeToolsGo (allTools : List Tool)
    (context : AgentContext) (hasSSE : Bool) :
    ∀ (blocks : List ContentBlock) (sse : SSEManager),
      NTExt sse (executeToolsGo allTools context hasSSE blocks sse).2 := by
  intro blocks
  induction blocks with
  | nil => intro sse; exact NTExt.rfl sse
  | cons b rest ih =>
      intro sse
      cases b with
      | text t => simpa [executeToolsGo] using ih sse
      | tool_use id name input =>
          simp only [executeToolsGo]
          exact NTExt.trans
            (ntext_executeToolBlock allTools context hasSSE sse id name input)
            (ih _)

theorem executeToolBlock_fst (allTools : List Tool) (context : AgentContext)
    (hasSSE : Bool) (sse : SSEManager) (id name input : String) :
    (executeToolBlock allTools context hasSSE sse id name input).1
      = toolResultFor allTools context id name input := by
  unfold executeToolBlock toolResultFor
  split
  · rfl
  · split <;> rfl

theorem executeToolsGo_fst (allTools : List Tool) (context : AgentContext)
    (hasSSE : Bool) :
    ∀ (blocks : List ContentBlock) (sse : SSEManager),
      (executeToolsGo allTools context hasSSE blocks sse).1
        = (toolUseRequests blocks).map
            (fun q => toolResultFor allTools context q.1 q.2.1 q.2.2) := by
  intro blocks
  induction blocks with
  | nil => intro sse; rfl
  | cons b rest ih =>
      intro sse
      cases b with
      | text t => simpa [executeToolsGo, toolUseRequests] using ih sse
      | tool_use id name input =>
          simp [executeToolsGo, toolUseRequests, executeToolBlock_fst, ih]

theorem ntext_loopGo (allTools : List Tool) (context : AgentContext)
    (maxIterations : Nat) (hasSSE : Bool) :
    ∀ (fuel : Nat) (st : LoopState),
      NTExt st.sse
        (executeAgentLoopGo allTools context maxIterations hasSSE fuel st).2.sse := by
  intro fuel
  induction fuel with
  | zero => intro st; exact NTExt.rfl st.sse
  | succ n ih =>
      intro st
      cases hs : st.script with
      | nil =>
          simp only [executeAgentLoopGo, hs]
          exact NTExt.rfl st.sse
      | cons response rest =>
          obtain ⟨content, stopR, usage⟩ := response
          cases stopR <;> simp only [executeAgentLoopGo, hs]
          case end_turn =>
            exact ntext_ite (ntext_streamAgentResponse _ _)
          case max_tokens =>
            exact ntext_ite (ntext_streamAgentResponse _ _)
          case stop_sequence =>
            exact ntext_ite (ntext_streamAgentResponse _ _)
          case tool_use =>
            exact NTExt.trans (NTExt.trans (NTExt.trans
                (ntext_ite (ntext_streamAgentResponse _ _))
                (ntext_ite (ntext_sendProgress _ _)))
                (ntext_executeToolsGo allTools context hasSSE _ _))
              (ih _)

theorem loopGo_all_tool_use (allTools : List Tool) (context : AgentContext)
    (maxIterations : Nat) (hasSSE : Bool) :
    ∀ (fuel : Nat) (st : LoopState),
      (∀ m ∈ st.script, m.stop_reason = StopReason.tool_use) →
      fuel ≤ st.script.length →
      (executeAgentLoopGo allTools context maxIterations hasSSE fuel st).1
          = Except.error (ThrownError.agentExecutionError
              (iterationLimitMessage maxIterations))
        ∧ (executeAgentLoopGo allTools context maxIterations hasSSE fuel st).2.modelCalls
          = st.modelCalls + fuel := by
  intro fuel
  induction fuel with
  | zero => intro st _ _; exact ⟨rfl, rfl⟩
  | succ n ih =>
      intro st hstop hlen
      cases hs : st.script with
      | nil => simp [hs] at hlen
      | cons response rest =>
          obtain ⟨content, stopR, usage⟩ := response
          have hsr : stopR = StopReason.tool_use := by
            have := hstop _ (by rw [hs]; exact List.mem_cons_self _ _)
            simpa using this
          subst hsr
          simp only [executeAgentLoopGo, hs]
          have hstop1 : ∀ m ∈ rest, m.stop_reason = StopReason.tool_use := by
            intro m hm
            exact hstop m (by rw [hs]; exact List.mem_cons_of_mem _ hm)
          have hlen1 : n ≤ rest.length := by
            rw [hs] at hlen
            simpa using Nat.le_of_succ_le_succ hlen
          refine ⟨(ih _ hstop1 hlen1).1, ?_⟩
          rw [(ih _ hstop1 hlen1).2]
          simp only []
          omega

theorem toolResultFor_id (allTools : List Tool) (context : AgentContext)
    (id name input : String) :
    (toolResultFor allTools context id name input).tool_use_id = id := by
  unfold toolResultFor
  split
  · rfl
  · split <;> rfl

theorem sendEvent_closed (st : SSEManager) (h : st.isClosed = true)
    (e : SSEEvent) : st.sendEvent e = st := by
  simp [SSEManager.sendEvent, h]

theorem close_isClosed (st : SSEManager) : st.close.isClosed = true := by
  unfold SSEManager.close
  cases hc : st.isClosed <;> simp [hc]

theorem close_sent (st : SSEManager) : st.close.sent = st.sent := by
  unfold SSEManager.close
  cases hc : st.isClosed <;> simp [hc]

theorem executeTask_error_wrap (allTools : List Tool) (script : List Message)
    (input : AgentTaskInput) (taskId : String) (timeoutMs durationMs : Nat)
    (hasSSE : Bool) (sse : SSEManager) (maxIterations : Nat) (m : String)
    (h : (executeTaskLoop allTools script input taskId hasSSE sse maxIterations).1
          = Except.error (ThrownError.agentExecutionError m)) :
    (executeTask allTools script input taskId false timeoutMs durationMs
        hasSSE sse maxIterations).outcome
      = Except.error (ThrownError.agentExecutionError
          ("Agent task execution failed: " ++ m))
  ∧ (executeTask allTools script input taskId false timeoutMs durationMs
        hasSSE sse maxIterations).loopState
      = (executeTaskLoop allTools script input taskId hasSSE sse maxIterations).2 := by
  simp only [executeTask, executeWithTimeout, Bool.false_eq_true, if_false]
  rw [h]
  exact ⟨rfl, rfl⟩

/-! Claim theorems. -/

/-- C1: the claim states that for every execution, the context passed to
every tool invocation binds `userId` to the owner identity and `taskId` to
the task identity.  The code calls `createAgentContext(taskId,
input.userId, contextOptions)` against the declared parameter order
`(userId, taskId, options)`, so the built context binds `userId` to the
task id and `taskId` to the owner id, and tools receive the swapped
identities: in a concrete run the probe tool, which echoes the
`context.userId` it is given, reports the task id `task-123`, not the
owner `user-1`. -/
theorem c1_executor_swaps_owner_and_task_ids :
    (executeTaskContext sampleInput "task-123").userId = "task-123"
  ∧ (executeTaskContext sampleInput "task-123").taskId = "user-1"
  ∧ sampleInput.userId = "user-1"
  ∧ (executeTask [probeTool] [msgToolProbe, msgEnd] sampleInput "task-123"
        false 120000 0 false freshSSE CLAUDE_CONFIG.MAX_ITERATIONS).loopState.messages
      = [MessageParam.userText "list categories",
         MessageParam.assistantBlocks [ContentBlock.tool_use "tu1" "probe" "x"],
         MessageParam.userToolResults
           [{ tool_use_id := "tu1", content := "task-123", is_error := none }]]
  ∧ ("task-123" : String) ≠ "user-1" := by
  refine ⟨rfl, rfl, rfl, rfl, ?_⟩
  decide

/-- C2 counterexample: a `markTaskFailed` call on a task already in the
terminal Completed state is not a no-op — it overwrites the stored status,
error and `completedAt`. -/
theorem c2_terminal_task_overwritten :
    completedRecord.status = TaskStatus.completed
  ∧ completedRecord.completedAt = some 5
  ∧ completedRecord.error = none
  ∧ (markTaskFailed completedRecord (ThrownError.genericError "late failure")
        none 10).status = TaskStatus.failed
  ∧ (markTaskFailed completedRecord (ThrownError.genericError "late failure")
        none 10).completedAt = some 10
  ∧ (markTaskFailed completedRecord (ThrownError.genericError "late failure")
        none 10).error
      = some { message := "late failure", code := some "Error" } :=
  ⟨rfl, rfl, rfl, rfl, rfl, rfl⟩

/-- C2 amended: `markTaskCompleted` and `markTaskFailed` never read the
stored status; they unconditionally overwrite status, result/error,
`updatedAt` and `completedAt` (last-writer-wins), for every prior record
state, terminal or not. -/
theorem c2_mark_calls_are_last_writer_wins (r : TaskRecord)
    (result : AgentExecutionResult) (e : ThrownError)
    (retryCount : Option Nat) (now : Nat) :
    (markTaskCompleted r result now).status = TaskStatus.completed
  ∧ (markTaskCompleted r result now).result = some result.result
  ∧ (markTaskCompleted r result now).completedAt = some now
  ∧ (markTaskFailed r e retryCount now).status = TaskStatus.failed
  ∧ (markTaskFailed r e retryCount now).error
      = some { message := e.message, code := some e.name }
  ∧ (markTaskFailed r e retryCount now).completedAt = some now := by
  cases retryCount <;> exact ⟨rfl, rfl, rfl, rfl, rfl, rfl⟩

/-- C3 (code bug): at a run where the model requests one tool and then
completes naturally, two model-completion calls are made and one tool
invocation is executed, but the returned metadata reports
`iterations = 1` (hardcoded) and `toolsUsed = 0` (`countToolUses` applied
to the final response, which has no tool-use blocks). -/
theorem c3_reported_metadata_wrong :
    (executeTask [probeTool] [msgToolProbe, msgEnd] sampleInput "task-123"
        false 120000 0 false freshSSE CLAUDE_CONFIG.MAX_ITERATIONS).outcome
      = Except.ok
          { taskId := "task-123", result := "done", toolsUsed := 0
            iterations := 1, durationMs := 0
            tokensUsed := some { input := 20, output := 7, total := 27 } }
  ∧ (executeTask [probeTool] [msgToolProbe, msgEnd] sampleInput "task-123"
        false 120000 0 false freshSSE CLAUDE_CONFIG.MAX_ITERATIONS).loopState.modelCalls
      = 2
  ∧ (executeTask [probeTool] [msgToolProbe, msgEnd] sampleInput "task-123"
        false 120000 0 false freshSSE CLAUDE_CONFIG.MAX_ITERATIONS).loopState.toolRuns
      = 1
  ∧ (1 : Nat) ≠ 2
  ∧ (0 : Nat) ≠ 1 := by
  refine ⟨rfl, rfl, rfl, ?_, ?_⟩ <;> decide

/-- C9: every `Send` on a closed streaming handle — closed by the
manager's own `close` or by a remote disconnect — is a silent no-op: it
writes nothing and returns the state unchanged (the send function is
total, so no error reaches the caller). -/
theorem c9_send_after_close_is_noop (st : SSEManager) (e : SSEEvent) :
    st.close.isClosed = true
  ∧ st.handleDisconnect.isClosed = true
  ∧ st.close.sendEvent e = st.close
  ∧ st.handleDisconnect.sendEvent e = st.handleDisconnect
  ∧ (st.close.sendEvent e).sent = st.close.sent := by
  cases hc : st.isClosed <;>
    simp [SSEManager.close, SSEManager.handleDisconnect,
      SSEManager.sendEvent, hc]

/-- C4: `executeTools` appends exactly one tool outcome per model-requested
tool invocation, with the invocation's correlation id, in order; an
unregistered name yields a synthesized error outcome carrying the
`Tool ... not found` message, and a thrown tool error is converted into an
error outcome with the same correlation id; the dispatch is total (it
always returns an outcome list, never propagates a failure). -/
theorem c4_one_outcome_per_invocation (allTools : List Tool)
    (context : AgentContext) (response : Message) (hasSSE : Bool)
    (sse : SSEManager) :
    ((executeTools allTools context response hasSSE sse).1
        = (toolUseRequests response.content).map
            (fun q => toolResultFor allTools context q.1 q.2.1 q.2.2))
  ∧ ((executeTools allTools context response hasSSE sse).1.map
        (fun r => r.tool_use_id)
        = (toolUseRequests response.content).map (fun q => q.1))
  ∧ (∀ id name input,
        allTools.find? (fun t => t.name == name) = none →
        toolResultFor allTools context id name input
          = { tool_use_id := id
              content := errorResultContent (toolNotFoundMessage name)
              is_error := some true })
  ∧ (∀ id name input tool msg,
        allTools.find? (fun t => t.name == name) = some tool →
        tool.execute input context = Except.error msg →
        toolResultFor allTools context id name input
          = { tool_use_id := id
              content := errorResultContent msg
              is_error := some true }) := by
  have h1 := executeToolsGo_fst allTools context hasSSE response.content sse
  refine ⟨h1, ?_, ?_, ?_⟩
  · show (executeToolsGo allTools context hasSSE response.content sse).1.map
        (fun r => r.tool_use_id)
      = (toolUseRequests response.content).map (fun q => q.1)
    rw [h1, List.map_map]
    exact List.map_congr_left (fun q _ => toolResultFor_id allTools context _ _ _)
  · intro id name input h
    simp only [toolResultFor, h]
  · intro id name input tool msg hfind hexec
    simp only [toolResultFor, hfind, hexec]

/-- C4 witness: at a concrete registry with one throwing tool and a
response requesting that tool plus an unregistered name, each invocation
gets exactly one outcome with its correlation id; the unknown name yields
the synthesized not-found error outcome and the thrown error yields a
converted error outcome. -/
theorem c4_one_outcome_per_invocation_witness :
    ((executeTools [failTool] (createAgentContext "u" "t" {}) msgTwoTools
        false freshSSE).1.map (fun r => r.tool_use_id) = ["a1", "a2"])
  ∧ toolResultFor [failTool] (createAgentContext "u" "t" {}) "a2" "nope" "y"
      = { tool_use_id := "a2"
          content := errorResultContent (toolNotFoundMessage "nope")
          is_error := some true }
  ∧ toolResultFor [failTool] (createAgentContext "u" "t" {}) "a1" "boom" "x"
      = { tool_use_id := "a1"
          content := errorResultContent "kaput"
          is_error := some true } := by
  have h := c4_one_outcome_per_invocation [failTool]
    (createAgentContext "u" "t" {}) msgTwoTools false freshSSE
  exact ⟨h.2.1, h.2.2.1 "a2" "nope" "y" rfl,
    h.2.2.2 "a1" "boom" "x" failTool "kaput" rfl rfl⟩

/-- C5 counterexample: there is no distinct IterationLimitExceeded error:
iteration exhaustion surfaces as an `AgentExecutionError` with stable code
`AGENT_EXECUTION_ERROR`, exactly the same error class and code as a
generic execution failure (here, a failed model call), distinguishable
only by message text. -/
theorem c5_no_distinct_iteration_error :
    outcomeErrorName (executeTask [probeTool] [msgToolProbe, msgToolProbe]
        sampleInput "task-123" false 120000 0 false freshSSE 2).outcome
      = some "AgentExecutionError"
  ∧ outcomeErrorCode (executeTask [probeTool] [msgToolProbe, msgToolProbe]
        sampleInput "task-123" false 120000 0 false freshSSE 2).outcome
      = some "AGENT_EXECUTION_ERROR"
  ∧ outcomeErrorName (executeTask [probeTool] [] sampleInput "task-123"
        false 120000 0 false freshSSE 2).outcome
      = some "AgentExecutionError"
  ∧ outcomeErrorCode (executeTask [probeTool] [] sampleInput "task-123"
        false 120000 0 false freshSSE 2).outcome
      = some "AGENT_EXECUTION_ERROR"
  ∧ (executeTask [probeTool] [msgToolProbe, msgToolProbe] sampleInput
        "task-123" false 120000 0 false freshSSE 2).outcome
      = Except.error (ThrownError.agentExecutionError
          ("Agent task execution failed: " ++ iterationLimitMessage 2)) :=
  ⟨rfl, rfl, rfl, rfl, rfl⟩

/-- C5 amended: when the model never reaches natural completion (every
scripted response requests tools), the loop makes exactly the configured
maximum number of model-completion calls (config default 20) and then
throws an `AgentExecutionError` whose message states the maximum
iterations were exceeded; `executeTask` surfaces it rewrapped as an
`AgentExecutionError` — distinct from other execution errors only by its
message, not by error type or code. -/
theorem c5_iteration_bound (allTools : List Tool) (context : AgentContext)
    (messages : List MessageParam) (hasSSE : Bool) (sse : SSEManager)
    (script : List Message) (maxIterations : Nat) (input : AgentTaskInput)
    (taskId : String) (timeoutMs durationMs : Nat)
    (hstop : ∀ m ∈ script, m.stop_reason = StopReason.tool_use)
    (hlen : maxIterations ≤ script.length) :
    (executeAgentLoop allTools context messages hasSSE sse script
        maxIterations).1
      = Except.error (ThrownError.agentExecutionError
          (iterationLimitMessage maxIterations))
  ∧ (executeAgentLoop allTools context messages hasSSE sse script
        maxIterations).2.modelCalls = maxIterations
  ∧ (executeTask allTools script input taskId false timeoutMs durationMs
        hasSSE sse maxIterations).outcome
      = Except.error (ThrownError.agentExecutionError
          ("Agent task execution failed: " ++ iterationLimitMessage maxIterations))
  ∧ (executeTask allTools script input taskId false timeoutMs durationMs
        hasSSE sse maxIterations).loopState.modelCalls = maxIterations
  ∧ CLAUDE_CONFIG.MAX_ITERATIONS = 20 := by
  have hloop := loopGo_all_tool_use allTools context maxIterations hasSSE
    maxIterations
    { script := script, messages := messages, sse := sse
      modelCalls := 0, toolRuns := 0 } hstop hlen
  have hloop2 := loopGo_all_tool_use allTools (executeTaskContext input taskId)
    maxIterations hasSSE maxIterations
    { script := script
      messages := executeTaskInitialMessages input
      sse := if hasSSE then sse.sendProgress "Starting task execution..." else sse
      modelCalls := 0, toolRuns := 0 } hstop hlen
  have hwrap := executeTask_error_wrap allTools script input taskId timeoutMs
    durationMs hasSSE sse maxIterations (iterationLimitMessage maxIterations)
    hloop2.1
  refine ⟨hloop.1, by simpa using hloop.2, hwrap.1, ?_, rfl⟩
  rw [hwrap.2]
  simpa using hloop2.2

/-- C5 witness: the amended claim at the concrete scenario
`maxIterations = 2` with a model that always requests another tool call:
the loop makes exactly 2 model calls and fails with the iteration-limit
`AgentExecutionError`. -/
theorem c5_iteration_bound_witness :
    (executeAgentLoop [probeTool] (executeTaskContext sampleInput "task-123")
        [] false freshSSE [msgToolProbe, msgToolProbe] 2).1
      = Except.error (ThrownError.agentExecutionError (iterationLimitMessage 2))
  ∧ (executeAgentLoop [probeTool] (executeTaskContext sampleInput "task-123")
        [] false freshSSE [msgToolProbe, msgToolProbe] 2).2.modelCalls = 2
  ∧ (executeTask [probeTool] [msgToolProbe, msgToolProbe] sampleInput
        "task-123" false 120000 0 false freshSSE 2).outcome
      = Except.error (ThrownError.agentExecutionError
          ("Agent task execution failed: " ++ iterationLimitMessage 2)) := by
  have h := c5_iteration_bound [probeTool]
    (executeTaskContext sampleInput "task-123") [] false freshSSE
    [msgToolProbe, msgToolProbe] 2 sampleInput "task-123" 120000 0
    (by decide) (by decide)
  exact ⟨h.1, h.2.1, h.2.2.1⟩

/-- C6: when the single wall-clock timeout racing the whole agent loop
fires first, `executeTask` fails with the `TimeoutError` itself, rethrown
as is (name `TimeoutError`, stable code `TIMEOUT_ERROR`), not wrapped into
an `AgentExecutionError`; the race result is independent of whatever the
in-flight loop would have produced. -/
theorem c6_timeout_propagated_unwrapped (allTools : List Tool)
    (script : List Message) (input : AgentTaskInput) (taskId : String)
    (timeoutMs durationMs : Nat) (hasSSE : Bool) (sse : SSEManager)
    (maxIterations : Nat) :
    (executeTask allTools script input taskId true timeoutMs durationMs
        hasSSE sse maxIterations).outcome
      = Except.error (ThrownError.timeoutError (timeoutMessage timeoutMs))
  ∧ outcomeErrorName (executeTask allTools script input taskId true
        timeoutMs durationMs hasSSE sse maxIterations).outcome
      = some "TimeoutError"
  ∧ outcomeErrorCode (executeTask allTools script input taskId true
        timeoutMs durationMs hasSSE sse maxIterations).outcome
      = some "TIMEOUT_ERROR"
  ∧ ∀ (run : Except ThrownError Message),
      executeWithTimeout true timeoutMs run
        = Except.error (ThrownError.timeoutError (timeoutMessage timeoutMs)) :=
  ⟨rfl, rfl, rfl, fun _ => rfl⟩

/-- C8: with the default configuration (3 retries, hence 4 attempts) and a
job whose every attempt throws, exactly 4 attempts are made, the job never
succeeds, the final tracked status is Failed with `retryCount = 3`
recorded, and the configured backoff doubles from the 1000 ms base delay,
strictly increasing over the three retries. -/
theorem c8_retry_policy_four_attempts (errs : Nat → ThrownError)
    (r0 : TaskRecord) (now : Nat) :
    (runJob QUEUE_MAX_RETRIES (fun i => Except.error (errs i)) true now r0).1
      = 4
  ∧ (runJob QUEUE_MAX_RETRIES (fun i => Except.error (errs i)) true now
        r0).2.1.status = TaskStatus.failed
  ∧ (runJob QUEUE_MAX_RETRIES (fun i => Except.error (errs i)) true now
        r0).2.1.metadata = some { retryCount := some 3 }
  ∧ (runJob QUEUE_MAX_RETRIES (fun i => Except.error (errs i)) true now
        r0).2.2 = none
  ∧ jobAttempts QUEUE_MAX_RETRIES = 4
  ∧ QUEUE_MAX_RETRIES = 3
  ∧ backoffDelayMs 0 = 1000
  ∧ backoffDelayMs 1 = 2 * backoffDelayMs 0
  ∧ backoffDelayMs 2 = 2 * backoffDelayMs 1
  ∧ backoffDelayMs 0 < backoffDelayMs 1
  ∧ backoffDelayMs 1 < backoffDelayMs 2 := by
  refine ⟨?_, ?_, ?_, ?_, rfl, rfl, rfl, rfl, rfl, by decide, by decide⟩ <;>
    simp [runJob, runJobGo, jobAttempts, QUEUE_MAX_RETRIES, processAgentTask,
      markTaskProcessing, updateTaskStatus, markTaskFailed]

/-- C10: on every successful execution, the reported token usage is taken
solely from the final model response of the loop — its `usage` mapped to
(input, output, input + output) — not summed over the model calls of the
run. -/
theorem c10_tokens_from_final_response (allTools : List Tool)
    (script : List Message) (input : AgentTaskInput) (taskId : String)
    (timeoutMs durationMs : Nat) (hasSSE : Bool) (sse : SSEManager)
    (maxIterations : Nat) (response : Message)
    (h : (executeTaskLoop allTools script input taskId hasSSE sse
            maxIterations).1 = Except.ok response) :
    (executeTask allTools script input taskId false timeoutMs durationMs
        hasSSE sse maxIterations).outcome
      = Except.ok
          { taskId := taskId
            result := extractTextFromResponse response
            toolsUsed := countToolUses response
            iterations := 1
            durationMs := durationMs
            tokensUsed := response.usage.map (fun u =>
              { input := u.input_tokens
                output := u.output_tokens
                total := u.input_tokens + u.output_tokens }) } := by
  simp only [executeTask, executeWithTimeout, Bool.false_eq_true, if_false]
  rw [h]

theorem streamError_open (e : ThrownError) (s : SSEManager)
    (h : s.isClosed = false) :
    streamError e s = s.sendError e.message := by
  simp [streamError, h]

theorem c7_shape_helper (s : SSEManager) (extra : List SSEEvent)
    (t : SSEEvent) (outc : Except ThrownError AgentExecutionResult)
    (hcl : s.isClosed = false)
    (hsent : s.sent
      = { type := SSEEventType.progress
          data := "Starting task execution..." } :: extra)
    (hextra : ∀ e ∈ extra, e.isTerminal = false)
    (ht : t.isTerminal = true)
    (hok : ∀ r, outc = Except.ok r → t.type = SSEEventType.complete)
    (herr : ∀ e1, outc = Except.error e1 → t.type = SSEEventType.error) :
    (s.sendEvent t).close.isClosed = true
  ∧ (∃ front lastE, (s.sendEvent t).close.sent = front ++ [lastE]
      ∧ (∀ e ∈ front, e.isTerminal = false)
      ∧ lastE.isTerminal = true
      ∧ (∀ r, outc = Except.ok r → lastE.type = SSEEventType.complete)
      ∧ (∀ e1, outc = Except.error e1 → lastE.type = SSEEventType.error))
  ∧ (∀ e, (s.sendEvent t).close.sendEvent e = (s.sendEvent t).close) := by
  refine ⟨close_isClosed _,
    ⟨{ type := SSEEventType.progress
       data := "Starting task execution..." } :: extra, t, ?_, ?_, ht, hok, herr⟩,
    fun e => sendEvent_closed _ (close_isClosed _) e⟩
  · rw [close_sent]
    simp [SSEManager.sendEvent, hcl, hsent]
  · intro e he
    rcases List.mem_cons.1 he with h | h
    · subst h; rfl
    · exact hextra e h

/-- C7: on a streaming execution over a fresh connection, the delivered
event sequence is zero or more non-terminal (progress, tool-use, thinking)
events, in execution order, followed by exactly one terminal event —
`complete` when the task returns a result, `error` when it fails — after
which the manager has closed the connection and any further send is a
no-op, delivering nothing.  (The wall-clock ping heartbeat is outside the
modelled execution trace.) -/
theorem c7_single_terminal_event_then_closed (allTools : List Tool)
    (script : List Message) (input : AgentTaskInput) (taskId : String)
    (timedOut : Bool) (timeoutMs durationMs maxIterations : Nat) :
    (executeTask allTools script input taskId timedOut timeoutMs durationMs
        true freshSSE maxIterations).sse.isClosed = true
  ∧ (∃ front lastE,
        (executeTask allTools script input taskId timedOut timeoutMs
            durationMs true freshSSE maxIterations).sse.sent
          = front ++ [lastE]
      ∧ (∀ e ∈ front, e.isTerminal = false)
      ∧ lastE.isTerminal = true
      ∧ (∀ r, (executeTask allTools script input taskId timedOut timeoutMs
            durationMs true freshSSE maxIterations).outcome = Except.ok r →
          lastE.type = SSEEventType.complete)
      ∧ (∀ e1, (executeTask allTools script input taskId timedOut timeoutMs
            durationMs true freshSSE maxIterations).outcome = Except.error e1 →
          lastE.type = SSEEventType.error))
  ∧ (∀ e, (executeTask allTools script input taskId timedOut timeoutMs
        durationMs true freshSSE maxIterations).sse.sendEvent e
      = (executeTask allTools script input taskId timedOut timeoutMs
        durationMs true freshSSE maxIterations).sse) := by
  have hnt : NTExt
      { isClosed := false
        sent := [{ type := SSEEventType.progress
                   data := "Starting task execution..." }] }
      (executeTaskLoop allTools script input taskId true freshSSE
        maxIterations).2.sse :=
    ntext_loopGo allTools (executeTaskContext input taskId) maxIterations
      true maxIterations _
  obtain ⟨hcl, extra, hsent, hnterm⟩ := hnt
  have hclF : (executeTaskLoop allTools script input taskId true freshSSE
      maxIterations).2.sse.isClosed = false := hcl
  have hsentF : (executeTaskLoop allTools script input taskId true freshSSE
      maxIterations).2.sse.sent
      = { type := SSEEventType.progress
          data := "Starting task execution..." } :: extra := by
    simpa using hsent
  simp only [executeTask]
  cases hr : executeWithTimeout timedOut timeoutMs
      (executeTaskLoop allTools script input taskId true freshSSE
        maxIterations).1 with
  | ok response =>
      exact c7_shape_helper _ extra _ _ hclF hsentF hnterm rfl
        (fun r h => rfl) (fun e1 h => Except.noConfusion h)
  | error e =>
      cases e <;>
        (dsimp only; simp only [if_true]; rw [streamError_open _ _ hclF]) <;>
        exact c7_shape_helper _ extra _ _ hclF hsentF hnterm rfl
          (fun r h => Except.noConfusion h) (fun e1 h => rfl)

/-- C7 witness: the shape holds at a concrete streamed success run and at
a concrete timed-out run. -/
theorem c7_single_terminal_event_then_closed_witness :
    ((executeTask [probeTool] [msgToolProbe, msgEnd] sampleInput "task-123"
        false 120000 0 true freshSSE 20).sse.isClosed = true)
  ∧ ((executeTask [probeTool] [msgToolProbe, msgEnd] sampleInput "task-123"
        true 120000 0 true freshSSE 20).sse.isClosed = true) := by
  exact ⟨(c7_single_terminal_event_then_closed [probeTool]
      [msgToolProbe, msgEnd] sampleInput "task-123" false 120000 0 20).1,
    (c7_single_terminal_event_then_closed [probeTool]
      [msgToolProbe, msgEnd] sampleInput "task-123" true 120000 0 20).1⟩

/-- C10 witness: a two-call run whose model calls report usage (10, 5) and
(20, 7): the result reports exactly (20, 7, 27), the usage of the final
call alone, not the sums (30, 12) over both calls. -/
theorem c10_tokens_from_final_response_witness :
    (executeTask [probeTool] [msgToolProbe, msgEnd] sampleInput "task-123"
        false 120000 0 false freshSSE 20).outcome
      = Except.ok
          { taskId := "task-123", result := "done", toolsUsed := 0
            iterations := 1, durationMs := 0
            tokensUsed := some { input := 20, output := 7, total := 27 } }
  ∧ msgToolProbe.usage = some { input_tokens := 10, output_tokens := 5 }
  ∧ msgEnd.usage = some { input_tokens := 20, output_tokens := 7 }
  ∧ (10 + 20 ≠ 20 ∧ 5 + 7 ≠ 7) := by
  have h := c10_tokens_from_final_response [probeTool] [msgToolProbe, msgEnd]
    sampleInput "task-123" 120000 0 false freshSSE 20 msgEnd rfl
  exact ⟨h, rfl, rfl, by decide, by decide⟩

end QRAgent
